import Mathlib

/-!
Shallow embedding of `src/data_transformer.py` (class `DataTransformer`):
the transformation of a tabular product source into the fixed sixteen-column
Odoo product-template table, and the validator of a transformed table.

Modelling conventions:
* A pandas cell is `Cell`: a missing value (NaN), a number, or a text value.
  Numbers are exact rationals `ℚ` (the idealization of the float values the
  dataframe holds; the decisive rounding inputs of the claims are exact
  decimal values).
* A dataframe column of NaN-able values is `Option`-valued per row.
* `pd.to_numeric(..., errors="coerce")` / `Decimal(str(...))` parsing is
  modelled by `parseNumeric`, covering the optional-sign decimal-literal
  fragment of those parsers (scientific notation and the like are immaterial
  to every claim: what matters is that well-formed decimals parse and
  non-numeric text fails to a missing value).
* `Series.round` (numpy rounding) is modelled as exact round-half-to-even at
  the given number of decimal places (numpy's documented tie rule); the
  `Decimal.quantize(..., ROUND_HALF_UP)` call of `_format_currency` is exact
  round-half-away-from-zero (`Decimal(str(value))` re-reads the shortest
  decimal form, so exact decimal arithmetic is the right model there). Both
  are implemented below on the numerator and denominator of the exact
  rational so that they evaluate by `decide`; lemmas `roundHalfUpScaled_eq`
  and `roundHalfEvenScaled_eq` prove the implementations equal to the
  textbook floor-based forms. Binary-float representation drift at other
  tie points is outside the model; every concrete rounding fact stated
  below is one where the exact model and the float pipeline agree.
-/

/-- A single dataframe cell: NaN, a numeric value, or a text value. -/
inductive Cell where
  | missing
  | num (q : ℚ)
  | text (s : String)
deriving DecidableEq, Repr

/-- Python `str.strip()`: drop leading and trailing whitespace. -/
def pyStrip (s : String) : String :=
  String.mk (((s.toList.dropWhile Char.isWhitespace).reverse.dropWhile
    Char.isWhitespace).reverse)

/-- Python `str(...)` as applied by `Series.astype(str)`: NaN renders as the
string "nan"; a text cell is itself; a numeric cell renders through
`toString` (its exact spelling never matters to the claims, since
`clean_text_data` only compares the stripped result against "nan"). -/
def pyStr : Cell → String
  | Cell.missing => "nan"
  | Cell.num q => toString q
  | Cell.text s => s

/-- `DataTransformer._clean_text_data`, per cell:
`series.astype(str).str.strip().replace('nan', '')` — stringify, strip
whitespace, and replace a cell exactly equal to "nan" by the empty string. -/
def clean_text_data (c : Cell) : String :=
  let s := pyStrip (pyStr c)
  if s = "nan" then "" else s

/-- Accumulate a digit string into a natural number. -/
def digitsToNat (ds : List Char) : ℕ :=
  ds.foldl (fun a c => a * 10 + (c.toNat - 48)) 0

/-- The decimal-literal fragment shared by `pd.to_numeric(..., errors="coerce")`
and `Decimal(str(value))`: optional surrounding whitespace, an optional sign,
then digits with an optional fractional part (at least one digit overall).
Anything else fails to parse. -/
def parseNumeric (s : String) : Option ℚ :=
  let t := (pyStrip s).toList
  let signAndRest : ℤ × List Char :=
    match t with
    | '-' :: r => (-1, r)
    | '+' :: r => (1, r)
    | r => (1, r)
  let sign := signAndRest.1
  let rest := signAndRest.2
  let intPart := rest.takeWhile Char.isDigit
  let rest2 := rest.drop intPart.length
  match rest2 with
  | [] =>
    if intPart.isEmpty then none
    else some (mkRat (sign * digitsToNat intPart) 1)
  | '.' :: fracPart =>
    if fracPart.all Char.isDigit ∧ ¬(intPart.isEmpty ∧ fracPart.isEmpty) then
      some (mkRat
        (sign * (digitsToNat intPart * 10 ^ fracPart.length + digitsToNat fracPart))
        (10 ^ fracPart.length))
    else none
  | _ => none

/-- Round a rational to the nearest integer, ties to the even integer
(the tie rule of numpy/pandas `round`), computed on the exact fraction:
with `f = ⌊x⌋`, the fractional part is `(x.num - f * x.den) / x.den`, and
comparing it with `1/2` is comparing `2 * (x.num - f * x.den)` with `x.den`. -/
def roundHalfEvenScaled (x : ℚ) : ℤ :=
  let f := ⌊x⌋
  let twiceFrac := 2 * (x.num - f * (x.den : ℤ))
  if twiceFrac < (x.den : ℤ) then f
  else if (x.den : ℤ) < twiceFrac then f + 1
  else if f % 2 = 0 then f else f + 1

/-- Round a rational to the nearest integer, ties away from zero
(`decimal.ROUND_HALF_UP`): `⌊x + 1/2⌋` for nonnegative `x`, reflected for
negative `x`, computed on the exact fraction. -/
def roundHalfUpScaled (x : ℚ) : ℤ :=
  if 0 ≤ x.num then (mkRat (2 * x.num + (x.den : ℤ)) (2 * x.den)).floor
  else -(mkRat (2 * (-x.num) + (x.den : ℤ)) (2 * x.den)).floor

/-- Multiply a rational by `10 ^ places` (the decimal shift both rounding
routines start with). -/
def shiftPow10 (places : ℕ) (x : ℚ) : ℚ :=
  mkRat (x.num * 10 ^ places) x.den

/-- Round to `places` decimal places with ties to even: the semantics of
`Series.round(decimal_places)` in `_clean_float_data`. -/
def roundHalfEven (places : ℕ) (q : ℚ) : ℚ :=
  mkRat (roundHalfEvenScaled (shiftPow10 places q)) (10 ^ places)

/-- Round to `places` decimal places with ties away from zero: the semantics
of `Decimal.quantize(..., rounding=ROUND_HALF_UP)` in `_format_currency`. -/
def roundHalfUp (places : ℕ) (q : ℚ) : ℚ :=
  mkRat (roundHalfUpScaled (shiftPow10 places q)) (10 ^ places)

/-- `pd.to_numeric(series, errors="coerce")`, per cell: numbers pass through,
text is parsed (failures coerce to NaN), NaN stays NaN. -/
def toNumeric : Cell → Option ℚ
  | Cell.missing => none
  | Cell.num q => some q
  | Cell.text s => parseNumeric s

/-- `DataTransformer._clean_float_data`, per cell: coerce to numeric
(parse failures become NaN), then `round(decimal_places)`. -/
def clean_float_data (places : ℕ) (c : Cell) : Option ℚ :=
  (toNumeric c).map (roundHalfEven places)

/-- `DataTransformer._format_currency`: `0.0` for NaN; otherwise
`Decimal(str(value)).quantize(..., ROUND_HALF_UP)`, with every conversion
failure caught and replaced by `0.0`. -/
def format_currency (places : ℕ) (c : Cell) : ℚ :=
  match c with
  | Cell.missing => 0
  | Cell.num q => roundHalfUp places q
  | Cell.text s =>
    match parseNumeric s with
    | some q => roundHalfUp places q
    | none => 0

/-- One row of the target table, one `Option`-valued field per Odoo column
of `DataTransformer.odoo_columns` (in that fixed order); `none` is a NaN
cell of the result dataframe. -/
structure TargetRow where
  internalReference : Option String
  name : Option String
  canBeSold : Option Bool
  canBePurchased : Option Bool
  productType : Option String
  category : Option String
  salePrice : Option ℚ
  cost : Option ℚ
  qtyOnHand : Option ℚ
  weight : Option String
  volume : Option String
  barcode : Option String
  descriptionForQuotations : Option String
  descriptionForReceipts : Option String
  customerTaxes : Option String
  vendorTaxes : Option String
deriving DecidableEq, Repr

/-- The source dataframe: `ncols` columns (`len(df.columns)`), rows of cells
addressed by zero-based column position. -/
structure SourceTable where
  ncols : ℕ
  rows : List (List Cell)

/-- A freshly allocated result row, all sixteen fields NaN
(`pd.DataFrame(index=range(num_rows), columns=self.odoo_columns)`). -/
def initialRow : TargetRow :=
  { internalReference := none, name := none, canBeSold := none,
    canBePurchased := none, productType := none, category := none,
    salePrice := none, cost := none, qtyOnHand := none, weight := none,
    volume := none, barcode := none, descriptionForQuotations := none,
    descriptionForReceipts := none, customerTaxes := none,
    vendorTaxes := none }

/-- The row-independent defaults `transform` writes on every row before
mapping: `Can be Sold = True`, `Can be Purchased = True`,
`Product Type = 'Goods'`, `Category = 'All'`. -/
def setDefaults (r : TargetRow) : TargetRow :=
  { r with canBeSold := some true, canBePurchased := some true,
           productType := some "Goods", category := some "All" }

/-- The body of the mapping loop of `transform`, per row: write the cleaned
cell into the target field selected by `key` (the chain of `elif` branches
on `odoo_field`; an unrecognized key writes nothing). -/
def applyKeyToRow (key : String) (c : Cell) (tr : TargetRow) : TargetRow :=
  if key = "internal_reference" then
    { tr with internalReference := some (clean_text_data c) }
  else if key = "name" then
    { tr with name := some (clean_text_data c) }
  else if key = "list_price" then
    { tr with salePrice := clean_float_data 2 c }
  else if key = "standard_price" then
    { tr with cost := clean_float_data 2 c }
  else if key = "qty_available" then
    { tr with qtyOnHand := clean_float_data 2 c }
  else tr

/-- One iteration of the mapping loop of `transform`: for the mapping entry
`(j, key)`, if `j < len(df.columns)` the source column `j` is extracted and
its cleaned values are written into the target field selected by `key`;
otherwise the entry is skipped. -/
def applyMappingEntry (t : SourceTable) (st : List TargetRow) (j : ℕ)
    (key : String) : List TargetRow :=
  if j < t.ncols then
    List.zipWith (fun src tr => applyKeyToRow key (List.getD src j Cell.missing) tr)
      t.rows st
  else st

/-- The final fills of `transform`: `fillna(0.0)` on the three numeric
fields and `fillna('')` on the seven optional text fields. -/
def fillRowDefaults (r : TargetRow) : TargetRow :=
  { r with salePrice := some (r.salePrice.getD 0),
           cost := some (r.cost.getD 0),
           qtyOnHand := some (r.qtyOnHand.getD 0),
           weight := some (r.weight.getD ""),
           volume := some (r.volume.getD ""),
           barcode := some (r.barcode.getD ""),
           descriptionForQuotations := some (r.descriptionForQuotations.getD ""),
           descriptionForReceipts := some (r.descriptionForReceipts.getD ""),
           customerTaxes := some (r.customerTaxes.getD ""),
           vendorTaxes := some (r.vendorTaxes.getD "") }

/-- `DataTransformer.transform`: allocate one all-NaN row per source row,
set the constant defaults, apply the column mapping in order, drop the rows
whose `Internal Reference` or `Name` is NaN
(`dropna(subset=['Internal Reference', 'Name'])`), then fill the numeric
and optional text defaults. -/
def transform (t : SourceTable) (mapping : List (ℕ × String)) :
    List TargetRow :=
  List.map fillRowDefaults
    (List.filter (fun r => r.internalReference.isSome && r.name.isSome)
      (mapping.foldl (fun st p => applyMappingEntry t st p.1 p.2)
        (t.rows.map fun _ => setDefaults initialRow)))

/-- `Series.duplicated()` with an accumulator of already-seen values: an
entry is flagged exactly when an equal value occurred earlier (pandas treats
two NaN `Internal Reference` cells as duplicates of each other as well,
hence `Option String`). -/
def dupFlagsAux (seen : List (Option String)) :
    List (Option String) → List Bool
  | [] => []
  | x :: xs => seen.contains x :: dupFlagsAux (x :: seen) xs

/-- `df['Internal Reference'].duplicated()`: `False` at the first occurrence
of each value, `True` at every later occurrence. -/
def dupFlags (l : List (Option String)) : List Bool :=
  dupFlagsAux [] l

/-- `df[mask][column].tolist()`: the values at the `True` positions of the
mask. -/
def maskList {α : Type} (flags : List Bool) (l : List α) : List α :=
  (List.zip flags l).filterMap (fun p => if p.1 then some p.2 else none)

/-- A validator message, one constructor per `append` site of
`validate_transformed_data` (the Python code builds these as strings; the
payload of each constructor is exactly the data interpolated into the
string). -/
inductive VMsg where
  | missingInternalReference
  | missingName
  | duplicateRefs (refs : List (Option String))
  | emptyField (field : String)
  | negativeField (field : String)
deriving DecidableEq, Repr

/-- Does a message report duplicate internal references? -/
def VMsg.isDuplicateRefs : VMsg → Bool
  | VMsg.duplicateRefs _ => true
  | _ => false

/-- The dictionary returned by `validate_transformed_data`. -/
structure ValidationResult where
  errors : List VMsg
  warnings : List VMsg
  valid : Bool
deriving DecidableEq, Repr

/-- The per-field numeric checks of `validate_transformed_data`: a warning
if any value of the field is NaN, and a warning if any value is negative
(a NaN cell never counts as negative, mirroring `NaN < 0` being false). -/
def numericFieldWarnings (df : List TargetRow) (field : String)
    (value : TargetRow → Option ℚ) : List VMsg :=
  (if df.any (fun r => (value r).isNone) then [VMsg.emptyField field] else []) ++
  (if df.any (fun r => match value r with
      | some q => decide (q < 0)
      | none => false) then [VMsg.negativeField field] else [])

/-- `DataTransformer.validate_transformed_data`: required-field errors
(`isna` checks on `Internal Reference` and `Name`), the single duplicate
warning, the numeric-field warnings in column order, and
`valid = (len(errors) == 0)`. -/
def validate_transformed_data (df : List TargetRow) : ValidationResult :=
  let errors :=
    (if df.any (fun r => r.internalReference.isNone) then
      [VMsg.missingInternalReference] else []) ++
    (if df.any (fun r => r.name.isNone) then [VMsg.missingName] else [])
  let refs := df.map (fun r => r.internalReference)
  let flags := dupFlags refs
  let dupWarnings :=
    if flags.any id then [VMsg.duplicateRefs (maskList flags refs)] else []
  let warnings := dupWarnings ++
    numericFieldWarnings df "Sale Price" (fun r => r.salePrice) ++
    numericFieldWarnings df "Cost" (fun r => r.cost) ++
    numericFieldWarnings df "Quantity On Hand" (fun r => r.qtyOnHand)
  { errors := errors, warnings := warnings, valid := errors.isEmpty }

example : clean_text_data (Cell.text "  nan  ") = "" := by decide
example : clean_text_data Cell.missing = "" := by decide
example : parseNumeric "19.999" = some (mkRat 19999 1000) := by decide
example : parseNumeric "abc" = none := by decide
example : clean_float_data 2 (Cell.text "2.345") = some (mkRat 117 50) := by decide
example : clean_float_data 2 (Cell.text "-2.345") = some (mkRat (-117) 50) := by decide
example : format_currency 2 (Cell.text "2.345") = mkRat 47 20 := by decide
example : format_currency 2 (Cell.text "-2.345") = mkRat (-47) 20 := by decide
example : format_currency 2 (Cell.text "19.999") = 20 := by decide

example :
    (transform ⟨2, [[Cell.text "ABC-1", Cell.text "Widget"]]⟩
      [(0, "internal_reference"), (1, "name")]).map
      (fun r => r.internalReference) = [some "ABC-1"] := by decide

example :
    (transform ⟨2, [[Cell.text "   ", Cell.text "Widget"]]⟩
      [(0, "internal_reference"), (1, "name")]).map
      (fun r => r.internalReference) = [some ""] := by decide

example :
    (transform ⟨2, [[Cell.text "ABC-1", Cell.text "Widget"]]⟩
      [(0, "internal_reference")]).length = 0 := by decide

example :
    (validate_transformed_data
      (transform ⟨2, [[Cell.text "ABC-1", Cell.text "Widget"]]⟩
        [(0, "internal_reference"), (1, "name")])).valid = true := by decide

example :
    dupFlags [some "DUP-1", some "A", some "DUP-1"] =
      [false, false, true] := by decide

/-! ### Structural lemmas about the transformation -/

lemma mem_of_mem_zipWith {α β γ : Type} {f : α → β → γ} {l₁ : List α}
    {l₂ : List β} {c : γ} (h : c ∈ List.zipWith f l₁ l₂) :
    ∃ a ∈ l₁, ∃ b ∈ l₂, c = f a b := by
  induction l₁ generalizing l₂ with
  | nil => simp at h
  | cons a as ih =>
    cases l₂ with
    | nil => simp at h
    | cons b bs =>
      rcases List.mem_cons.mp h with h | h
      · exact ⟨a, List.mem_cons_self a as, b, List.mem_cons_self b bs, h⟩
      · rcases ih h with ⟨a', ha, b', hb, rfl⟩
        exact ⟨a', List.mem_cons_of_mem _ ha, b', List.mem_cons_of_mem _ hb, rfl⟩

lemma mem_applyMappingEntry {t : SourceTable} {st : List TargetRow} {j : ℕ}
    {key : String} {r : TargetRow} (h : r ∈ applyMappingEntry t st j key) :
    r ∈ st ∨ (j < t.ncols ∧ ∃ c, ∃ r₀ ∈ st, r = applyKeyToRow key c r₀) := by
  unfold applyMappingEntry at h
  split at h
  · rcases mem_of_mem_zipWith h with ⟨src, _, r₀, hr₀, rfl⟩
    exact Or.inr ⟨‹_›, _, r₀, hr₀, rfl⟩
  · exact Or.inl h

lemma foldl_mapping_invariant (t : SourceTable) (P : TargetRow → Prop) :
    ∀ (mapping : List (ℕ × String)) (st : List TargetRow),
      (∀ p ∈ mapping, p.1 < t.ncols →
        ∀ c tr, P tr → P (applyKeyToRow p.2 c tr)) →
      (∀ r ∈ st, P r) →
      ∀ r ∈ mapping.foldl (fun st p => applyMappingEntry t st p.1 p.2) st, P r := by
  intro mapping
  induction mapping with
  | nil => intro st _ hst r hr; exact hst r hr
  | cons p ps ih =>
    intro st hstep hst r hr
    simp only [List.foldl_cons] at hr
    refine ih _ (fun q hq => hstep q (List.mem_cons_of_mem _ hq)) ?_ r hr
    intro r' hr'
    rcases mem_applyMappingEntry hr' with h | ⟨hlt, c, r₀, hr₀, rfl⟩
    · exact hst _ h
    · exact hstep p (List.mem_cons_self _ _) hlt c r₀ (hst _ hr₀)

lemma mem_transform {t : SourceTable} {m : List (ℕ × String)} {r : TargetRow}
    (h : r ∈ transform t m) :
    ∃ r₀, r = fillRowDefaults r₀ ∧
      r₀.internalReference.isSome = true ∧ r₀.name.isSome = true ∧
      r₀ ∈ m.foldl (fun st p => applyMappingEntry t st p.1 p.2)
        (t.rows.map fun _ => setDefaults initialRow) := by
  unfold transform at h
  rcases List.mem_map.mp h with ⟨r₀, hr₀, rfl⟩
  rcases List.mem_filter.mp hr₀ with ⟨hmem, hcond⟩
  rcases Bool.and_eq_true_iff.mp hcond with ⟨h1, h2⟩
  exact ⟨r₀, rfl, h1, h2, hmem⟩

lemma applyKeyToRow_canBeSold (key : String) (c : Cell) (tr : TargetRow) :
    (applyKeyToRow key c tr).canBeSold = tr.canBeSold := by
  unfold applyKeyToRow; split_ifs <;> rfl

lemma applyKeyToRow_canBePurchased (key : String) (c : Cell) (tr : TargetRow) :
    (applyKeyToRow key c tr).canBePurchased = tr.canBePurchased := by
  unfold applyKeyToRow; split_ifs <;> rfl

lemma applyKeyToRow_productType (key : String) (c : Cell) (tr : TargetRow) :
    (applyKeyToRow key c tr).productType = tr.productType := by
  unfold applyKeyToRow; split_ifs <;> rfl

lemma applyKeyToRow_category (key : String) (c : Cell) (tr : TargetRow) :
    (applyKeyToRow key c tr).category = tr.category := by
  unfold applyKeyToRow; split_ifs <;> rfl

lemma applyKeyToRow_salePrice_of_ne (key : String) (c : Cell) (tr : TargetRow)
    (h : key ≠ "list_price") :
    (applyKeyToRow key c tr).salePrice = tr.salePrice := by
  unfold applyKeyToRow
  split_ifs with _h1 _h2 h3 _h4 _h5 <;> first | exact absurd h3 h | rfl

/-! ### The rounding implementations equal their textbook forms -/

lemma int_floor_eq_rat_floor (q : ℚ) : ⌊q⌋ = q.floor := by
  rw [Rat.floor_def, Rat.floor_def']

lemma num_eq_mul_den (y : ℚ) : (y.num : ℚ) = y * (y.den : ℚ) := by
  have hden : (y.den : ℚ) ≠ 0 := by exact_mod_cast y.den_ne_zero
  have h := Rat.num_div_den y
  rw [div_eq_iff hden] at h
  exact h

lemma mkRat_add_half (y : ℚ) :
    (mkRat (2 * y.num + (y.den : ℤ)) (2 * y.den) : ℚ) = y + 1 / 2 := by
  have hden : (0 : ℚ) < (y.den : ℚ) := by exact_mod_cast y.den_pos
  rw [Rat.mkRat_eq_div]
  push_cast
  rw [div_eq_iff (by positivity : (2 : ℚ) * (y.den : ℚ) ≠ 0), num_eq_mul_den y]
  ring

lemma roundHalfUpScaled_eq (x : ℚ) :
    roundHalfUpScaled x = if 0 ≤ x then ⌊x + 1 / 2⌋ else -⌊-x + 1 / 2⌋ := by
  have key : ∀ y : ℚ,
      (mkRat (2 * y.num + (y.den : ℤ)) (2 * y.den)).floor = ⌊y + 1 / 2⌋ := by
    intro y
    rw [← int_floor_eq_rat_floor, mkRat_add_half]
  have hneg : ∀ y : ℚ,
      (mkRat (2 * (-y.num) + (y.den : ℤ)) (2 * y.den)).floor = ⌊-y + 1 / 2⌋ := by
    intro y
    have h1 := key (-y)
    rwa [Rat.neg_num, Rat.neg_den] at h1
  unfold roundHalfUpScaled
  refine if_congr Rat.num_nonneg (key x) ?_
  rw [hneg x]

lemma sub_floor_frac (x : ℚ) :
    x - ⌊x⌋ = ((x.num - ⌊x⌋ * (x.den : ℤ) : ℤ) : ℚ) / (x.den : ℚ) := by
  have hden : (x.den : ℚ) ≠ 0 := by exact_mod_cast x.den_ne_zero
  rw [eq_div_iff hden]
  push_cast
  rw [num_eq_mul_den x]
  ring

lemma twiceFrac_lt_iff (x : ℚ) :
    2 * (x.num - ⌊x⌋ * (x.den : ℤ)) < (x.den : ℤ) ↔ x - ⌊x⌋ < 1 / 2 := by
  have hden : (0 : ℚ) < (x.den : ℚ) := by exact_mod_cast x.den_pos
  rw [sub_floor_frac, div_lt_div_iff₀ hden (by norm_num : (0 : ℚ) < 2), one_mul,
    mul_comm]
  exact_mod_cast Iff.rfl

lemma twiceFrac_gt_iff (x : ℚ) :
    (x.den : ℤ) < 2 * (x.num - ⌊x⌋ * (x.den : ℤ)) ↔ 1 / 2 < x - ⌊x⌋ := by
  have hden : (0 : ℚ) < (x.den : ℚ) := by exact_mod_cast x.den_pos
  rw [sub_floor_frac, div_lt_div_iff₀ (by norm_num : (0 : ℚ) < 2) hden, one_mul,
    mul_comm]
  exact_mod_cast Iff.rfl

lemma roundHalfEvenScaled_eq (x : ℚ) :
    roundHalfEvenScaled x =
      if x - ⌊x⌋ < 1 / 2 then ⌊x⌋
      else if 1 / 2 < x - ⌊x⌋ then ⌊x⌋ + 1
      else if ⌊x⌋ % 2 = 0 then ⌊x⌋ else ⌊x⌋ + 1 := by
  show (if 2 * (x.num - ⌊x⌋ * (x.den : ℤ)) < (x.den : ℤ) then ⌊x⌋
    else if (x.den : ℤ) < 2 * (x.num - ⌊x⌋ * (x.den : ℤ)) then ⌊x⌋ + 1
    else if ⌊x⌋ % 2 = 0 then ⌊x⌋ else ⌊x⌋ + 1) = _
  exact if_congr (twiceFrac_lt_iff x) rfl (if_congr (twiceFrac_gt_iff x) rfl rfl)

lemma shiftPow10_eq (places : ℕ) (x : ℚ) :
    shiftPow10 places x = x * 10 ^ places := by
  have hden : (x.den : ℚ) ≠ 0 := by exact_mod_cast x.den_ne_zero
  unfold shiftPow10
  rw [Rat.mkRat_eq_div]
  push_cast
  rw [div_eq_iff hden, num_eq_mul_den x]
  ring

/-! ### Lemmas about the duplicate detection of the validator -/

lemma dupFlagsAux_length (seen : List (Option String))
    (l : List (Option String)) : (dupFlagsAux seen l).length = l.length := by
  induction l generalizing seen with
  | nil => rfl
  | cons x xs ih => simp [dupFlagsAux, ih]

lemma dupFlags_length (l : List (Option String)) :
    (dupFlags l).length = l.length := dupFlagsAux_length [] l

lemma dupFlagsAux_getElem?_true (seen : List (Option String))
    (l : List (Option String)) (i : ℕ) :
    (dupFlagsAux seen l)[i]? = some true ↔
      ∃ x, l[i]? = some x ∧ (x ∈ seen ∨ ∃ k, k < i ∧ l[k]? = some x) := by
  induction l generalizing seen i with
  | nil => simp [dupFlagsAux]
  | cons y ys ih =>
    cases i with
    | zero =>
      simp only [dupFlagsAux, List.getElem?_cons_zero, Option.some_inj]
      constructor
      · intro h
        exact ⟨y, rfl, Or.inl (by simpa using h)⟩
      · rintro ⟨x, hx, hcase⟩
        rcases hx with rfl
        rcases hcase with hs | ⟨k, hk, _⟩
        · simpa using hs
        · exact absurd hk (Nat.not_lt_zero k)
    | succ n =>
      simp only [dupFlagsAux, List.getElem?_cons_succ]
      rw [ih]
      constructor
      · rintro ⟨x, hx, hcase⟩
        refine ⟨x, hx, ?_⟩
        rcases hcase with hseen | ⟨k, hk, hkx⟩
        · rcases List.mem_cons.mp hseen with rfl | hs
          · exact Or.inr ⟨0, Nat.succ_pos n, by simp⟩
          · exact Or.inl hs
        · exact Or.inr ⟨k + 1, Nat.succ_lt_succ hk, by simpa using hkx⟩
      · rintro ⟨x, hx, hcase⟩
        refine ⟨x, hx, ?_⟩
        rcases hcase with hseen | ⟨k, hk, hkx⟩
        · exact Or.inl (List.mem_cons_of_mem _ hseen)
        · cases k with
          | zero =>
            have hxy : y = x := by simpa using hkx
            exact Or.inl (hxy ▸ List.mem_cons_self y seen)
          | succ k' =>
            exact Or.inr ⟨k', Nat.lt_of_succ_lt_succ hk, by simpa using hkx⟩

lemma dupFlags_getElem?_true (l : List (Option String)) (i : ℕ) :
    (dupFlags l)[i]? = some true ↔
      ∃ x, l[i]? = some x ∧ ∃ k, k < i ∧ l[k]? = some x := by
  rw [dupFlags, dupFlagsAux_getElem?_true]
  simp

lemma countP_numericFieldWarnings (df : List TargetRow) (field : String)
    (value : TargetRow → Option ℚ) :
    (numericFieldWarnings df field value).countP VMsg.isDuplicateRefs = 0 := by
  unfold numericFieldWarnings
  split_ifs <;>
    simp [List.countP_append, List.countP_cons, VMsg.isDuplicateRefs]

lemma foldl_filter_in_range (t : SourceTable) :
    ∀ (m : List (ℕ × String)) (st : List TargetRow),
      m.foldl (fun st p => applyMappingEntry t st p.1 p.2) st =
      (m.filter fun p => decide (p.1 < t.ncols)).foldl
        (fun st p => applyMappingEntry t st p.1 p.2) st := by
  intro m
  induction m with
  | nil => intro st; rfl
  | cons p ps ih =>
    intro st
    rw [List.foldl_cons, List.filter_cons]
    by_cases h : p.1 < t.ncols
    · rw [if_pos (by simpa using h), List.foldl_cons]
      exact ih _
    · have hskip : applyMappingEntry t st p.1 p.2 = st := by
        unfold applyMappingEntry
        rw [if_neg h]
      rw [if_neg (by simpa using h), hskip]
      exact ih st

/-- A fully defaulted output row carrying only an internal reference and a
name: the shape `transform` produces for a source row whose mapped text
columns clean to `ref` and `nm` and whose numeric columns are unmapped. -/
def sampleRow (ref nm : String) : TargetRow :=
  { internalReference := some ref, name := some nm, canBeSold := some true,
    canBePurchased := some true, productType := some "Goods",
    category := some "All", salePrice := some 0, cost := some 0,
    qtyOnHand := some 0, weight := some "", volume := some "",
    barcode := some "", descriptionForQuotations := some "",
    descriptionForReceipts := some "", customerTaxes := some "",
    vendorTaxes := some "" }

/-! ### The claims -/

/-- C1: evaluation of `transform` at the failing input. The claim (and the
spec) say a target row whose `Internal Reference` or `Name` is empty after
mapping is dropped and every returned row has those fields non-empty. In the
code, `_clean_text_data` turns a NaN or whitespace-only cell of a mapped
column into the empty string (never NaN), and `dropna` removes only NaN
rows, so the row survives with `Internal Reference = ""`: for both a
whitespace-only cell and a missing cell mapped to `internal_reference`, the
returned table keeps the row with an empty `Internal Reference`. -/
theorem C1_transform_keeps_empty_required_fields :
    (transform ⟨2, [[Cell.text "   ", Cell.text "Widget"]]⟩
        [(0, "internal_reference"), (1, "name")]).map
      (fun r => r.internalReference) = [some ""] ∧
    (transform ⟨2, [[Cell.missing, Cell.text "Widget"]]⟩
        [(0, "internal_reference"), (1, "name")]).map
      (fun r => r.internalReference) = [some ""] :=
  ⟨by decide, by decide⟩

/-- C2 counterexample: numeric-clean does not round half up. On the tie
`2.345` at 2 places `_clean_float_data` (pandas `round`, ties to even)
yields `2.34 = 117/50`, not the claimed `2.35 = 47/20`; on `-2.345` it
yields `-2.34`, not the claimed `-2.35`. -/
theorem C2_counterexample_not_half_up :
    clean_float_data 2 (Cell.text "2.345") = some (mkRat 117 50) ∧
    clean_float_data 2 (Cell.text "2.345") ≠ some (mkRat 47 20) ∧
    clean_float_data 2 (Cell.text "-2.345") = some (mkRat (-117) 50) ∧
    clean_float_data 2 (Cell.text "-2.345") ≠ some (mkRat (-47) 20) :=
  ⟨by decide, by decide, by decide, by decide⟩

/-- C2 (amended): numeric-clean does not round half up; it rounds each
parsed value to the configured number of decimal places with the tie rule
of pandas `Series.round` (ties to even, here on the exact value): its
integer kernel is the floor-based ties-to-even rounding, `2.345` at 2
places yields `2.34` (not `2.35`), `-2.345` yields `-2.34` (not `-2.35`),
the non-tie `19.999` yields `20.0`, and a column mapped to `Sale Price`
through `transform` carries that result. Round-half-up lives only in the
scalar currency formatter. -/
theorem C2_amended_clean_float_half_even :
    (∀ x : ℚ, roundHalfEvenScaled x =
      if x - ⌊x⌋ < 1 / 2 then ⌊x⌋
      else if 1 / 2 < x - ⌊x⌋ then ⌊x⌋ + 1
      else if ⌊x⌋ % 2 = 0 then ⌊x⌋ else ⌊x⌋ + 1) ∧
    clean_float_data 2 (Cell.text "2.345") = some (mkRat 117 50) ∧
    clean_float_data 2 (Cell.text "-2.345") = some (mkRat (-117) 50) ∧
    clean_float_data 2 (Cell.text "19.999") = some 20 ∧
    (transform ⟨3, [[Cell.text "ABC-1", Cell.text "Widget", Cell.text "2.345"]]⟩
        [(0, "internal_reference"), (1, "name"), (2, "list_price")]).map
      (fun r => r.salePrice) = [some (mkRat 117 50)] :=
  ⟨roundHalfEvenScaled_eq, by decide, by decide, by decide, by decide⟩

/-- C3: a mapping entry whose source column index is not below the source
table's column count is ignored: `transform` equals `transform` on the
mapping with such entries filtered out (so it cannot fail because of them),
and if every entry for a field (here `list_price`) is out of range, that
field keeps only its default fill (`Sale Price = 0.0` on every returned
row). -/
theorem C3_out_of_range_entries_ignored (t : SourceTable)
    (m : List (ℕ × String)) :
    transform t m = transform t (m.filter fun p => decide (p.1 < t.ncols)) ∧
    ((∀ p ∈ m, p.2 = "list_price" → t.ncols ≤ p.1) →
      ∀ r ∈ transform t m, r.salePrice = some 0) := by
  constructor
  · unfold transform
    rw [foldl_filter_in_range]
  · intro h r hr
    rcases mem_transform hr with ⟨r₀, rfl, _, _, hmem⟩
    have hnone : r₀.salePrice = none := by
      refine foldl_mapping_invariant t (fun r => r.salePrice = none) m _
        ?_ ?_ r₀ hmem
      · intro p hp hlt c tr htr
        rcases eq_or_ne p.2 "list_price" with he | hne
        · exact absurd hlt (Nat.not_lt.mpr (h p hp he))
        · rw [applyKeyToRow_salePrice_of_ne _ _ _ hne]
          exact htr
      · intro r' hr'
        rcases List.mem_map.mp hr' with ⟨_, _, rfl⟩
        rfl
    show some (r₀.salePrice.getD 0) = some 0
    rw [hnone]
    rfl

/-- C3 witness: at a two-column table with an out-of-range `list_price`
entry, the filtered and unfiltered mappings agree and a concrete returned
row has the defaulted `Sale Price`. -/
theorem C3_witness :
    transform ⟨2, [[Cell.text "A", Cell.text "B"]]⟩
        [(0, "internal_reference"), (1, "name"), (9, "list_price")] =
      transform ⟨2, [[Cell.text "A", Cell.text "B"]]⟩
        ([(0, "internal_reference"), (1, "name"), (9, "list_price")].filter
          fun p => decide (p.1 <
            (SourceTable.mk 2 [[Cell.text "A", Cell.text "B"]]).ncols)) ∧
    (sampleRow "A" "B").salePrice = some 0 :=
  ⟨(C3_out_of_range_entries_ignored ⟨2, [[Cell.text "A", Cell.text "B"]]⟩
      [(0, "internal_reference"), (1, "name"), (9, "list_price")]).1,
    (C3_out_of_range_entries_ignored ⟨2, [[Cell.text "A", Cell.text "B"]]⟩
      [(0, "internal_reference"), (1, "name"), (9, "list_price")]).2
      (by decide) (sampleRow "A" "B") (by decide)⟩

/-- C4: the validator's `valid` flag is true exactly when its errors list is
empty, and it is a function of the errors list alone, so the warnings list
never affects it. -/
theorem C4_valid_iff_no_errors (df : List TargetRow) :
    ((validate_transformed_data df).valid = true ↔
      (validate_transformed_data df).errors = []) ∧
    ∀ df₂, (validate_transformed_data df).errors =
        (validate_transformed_data df₂).errors →
      (validate_transformed_data df).valid =
        (validate_transformed_data df₂).valid := by
  have hv : ∀ d : List TargetRow,
      (validate_transformed_data d).valid =
        (validate_transformed_data d).errors.isEmpty := fun _ => rfl
  constructor
  · rw [hv df]
    exact ⟨fun h => by simpa using h, fun h => by simp [h]⟩
  · intro df₂ he
    rw [hv df, hv df₂, he]

/-- C4 witness: the equivalence and the errors-only dependence, applied at
the empty table. -/
theorem C4_witness :
    ((validate_transformed_data []).valid = true ↔
      (validate_transformed_data []).errors = []) ∧
    (validate_transformed_data []).valid = (validate_transformed_data []).valid :=
  ⟨(C4_valid_iff_no_errors []).1, (C4_valid_iff_no_errors []).2 [] rfl⟩

/-- C5: if every row's `Internal Reference` and `Name` are present but equal
to the empty string, the validator's `isna` checks see no missing value, so
no missing-required-field error is produced and `valid = true`. -/
theorem C5_empty_strings_pass_validation (df : List TargetRow)
    (h : ∀ r ∈ df, r.internalReference = some "" ∧ r.name = some "") :
    (validate_transformed_data df).errors = [] ∧
    (validate_transformed_data df).valid = true := by
  have h1 : (df.any fun r => r.internalReference.isNone) = false := by
    rw [List.any_eq_false]
    intro r hr
    rw [(h r hr).1]
    simp
  have h2 : (df.any fun r => r.name.isNone) = false := by
    rw [List.any_eq_false]
    intro r hr
    rw [(h r hr).2]
    simp
  have herr : (validate_transformed_data df).errors = [] := by
    show ((if (df.any fun r => r.internalReference.isNone) then
        [VMsg.missingInternalReference] else []) ++
      (if (df.any fun r => r.name.isNone) then [VMsg.missingName] else [])) = []
    rw [h1, h2]
    rfl
  refine ⟨herr, ?_⟩
  show (validate_transformed_data df).errors.isEmpty = true
  rw [herr]
  rfl

/-- C5 witness: a one-row table whose required fields are empty strings
validates with no errors. -/
theorem C5_witness :
    (validate_transformed_data [sampleRow "" ""]).errors = [] ∧
    (validate_transformed_data [sampleRow "" ""]).valid = true :=
  C5_empty_strings_pass_validation [sampleRow "" ""] (by decide)

/-- C6: a numeric parse failure degrades the cell to missing at clean time
(no exception), every returned row has its three numeric fields defined
(the `fillna(0.0)` step), and end to end an unparsable `list_price` cell
comes out as `Sale Price = 0.0`. -/
theorem C6_malformed_cells_degrade (t : SourceTable) (m : List (ℕ × String)) :
    (∀ s, parseNumeric s = none → clean_float_data 2 (Cell.text s) = none) ∧
    (∀ r ∈ transform t m, r.salePrice.isSome = true ∧ r.cost.isSome = true ∧
      r.qtyOnHand.isSome = true) ∧
    (transform
        ⟨3, [[Cell.text "ABC-1", Cell.text "Widget", Cell.text "not-a-number"]]⟩
        [(0, "internal_reference"), (1, "name"), (2, "list_price")]).map
      (fun r => r.salePrice) = [some 0] := by
  refine ⟨?_, ?_, by decide⟩
  · intro s hs
    simp [clean_float_data, toNumeric, hs]
  · intro r hr
    rcases mem_transform hr with ⟨r₀, rfl, _, _, _⟩
    exact ⟨rfl, rfl, rfl⟩

/-- C6 witness: a concrete unparsable cell cleans to missing, and a concrete
returned row has all three numeric fields defined. -/
theorem C6_witness :
    (parseNumeric "abc" = none ∧ clean_float_data 2 (Cell.text "abc") = none) ∧
    ((sampleRow "A" "B").salePrice.isSome = true ∧
      (sampleRow "A" "B").cost.isSome = true ∧
      (sampleRow "A" "B").qtyOnHand.isSome = true) :=
  ⟨⟨by decide,
    (C6_malformed_cells_degrade ⟨2, [[Cell.text "A", Cell.text "B"]]⟩
      [(0, "internal_reference"), (1, "name")]).1 "abc" (by decide)⟩,
   (C6_malformed_cells_degrade ⟨2, [[Cell.text "A", Cell.text "B"]]⟩
      [(0, "internal_reference"), (1, "name")]).2.1 (sampleRow "A" "B")
      (by decide)⟩

/-- C7: every row of every table returned by `transform` carries the
constant defaults `Can be Sold = true`, `Can be Purchased = true`,
`Product Type = "Goods"`, `Category = "All"`, for any source table and
mapping. -/
theorem C7_constant_defaults (t : SourceTable) (m : List (ℕ × String)) :
    ∀ r ∈ transform t m,
      r.canBeSold = some true ∧ r.canBePurchased = some true ∧
      r.productType = some "Goods" ∧ r.category = some "All" := by
  intro r hr
  rcases mem_transform hr with ⟨r₀, rfl, _, _, hmem⟩
  have hP : r₀.canBeSold = some true ∧ r₀.canBePurchased = some true ∧
      r₀.productType = some "Goods" ∧ r₀.category = some "All" := by
    refine foldl_mapping_invariant t
      (fun r => r.canBeSold = some true ∧ r.canBePurchased = some true ∧
        r.productType = some "Goods" ∧ r.category = some "All") m _
      ?_ ?_ r₀ hmem
    · intro p hp hlt c tr htr
      refine ⟨?_, ?_, ?_, ?_⟩
      · rw [applyKeyToRow_canBeSold]; exact htr.1
      · rw [applyKeyToRow_canBePurchased]; exact htr.2.1
      · rw [applyKeyToRow_productType]; exact htr.2.2.1
      · rw [applyKeyToRow_category]; exact htr.2.2.2
    · intro r' hr'
      rcases List.mem_map.mp hr' with ⟨_, _, rfl⟩
      exact ⟨rfl, rfl, rfl, rfl⟩
  exact ⟨hP.1, hP.2.1, hP.2.2.1, hP.2.2.2⟩

/-- C7 witness: the defaults on a concrete returned row. -/
theorem C7_witness :
    (sampleRow "A" "B").canBeSold = some true ∧
    (sampleRow "A" "B").canBePurchased = some true ∧
    (sampleRow "A" "B").productType = some "Goods" ∧
    (sampleRow "A" "B").category = some "All" :=
  C7_constant_defaults ⟨2, [[Cell.text "A", Cell.text "B"]]⟩
    [(0, "internal_reference"), (1, "name")] (sampleRow "A" "B") (by decide)

/-- C8: text-clean never outputs the literal string "nan"; it maps a missing
cell to `""`, maps the cell `"  nan  "` to `""`, and otherwise returns the
whitespace-stripped textual representation of the cell. -/
theorem C8_clean_text_normalization :
    (∀ c, clean_text_data c ≠ "nan") ∧
    (∀ c, clean_text_data c = "" ∨ clean_text_data c = pyStrip (pyStr c)) ∧
    clean_text_data Cell.missing = "" ∧
    clean_text_data (Cell.text "  nan  ") = "" ∧
    (∀ s, pyStrip s ≠ "nan" → clean_text_data (Cell.text s) = pyStrip s) := by
  have hdef : ∀ c, clean_text_data c =
      if pyStrip (pyStr c) = "nan" then "" else pyStrip (pyStr c) :=
    fun _ => rfl
  refine ⟨?_, ?_, by decide, by decide, ?_⟩
  · intro c h
    by_cases hs : pyStrip (pyStr c) = "nan"
    · rw [hdef c, if_pos hs] at h
      exact absurd h (by decide)
    · rw [hdef c, if_neg hs] at h
      exact hs h
  · intro c
    by_cases hs : pyStrip (pyStr c) = "nan"
    · exact Or.inl (by rw [hdef c, if_pos hs])
    · exact Or.inr (by rw [hdef c, if_neg hs])
  · intro s h
    rw [hdef (Cell.text s)]
    exact if_neg h

/-- C8 witness: a concrete stripped text cell passes through text-clean. -/
theorem C8_witness :
    pyStrip "  ABC-1  " ≠ "nan" ∧
    clean_text_data (Cell.text "  ABC-1  ") = pyStrip "  ABC-1  " :=
  ⟨by decide, C8_clean_text_normalization.2.2.2.2 "  ABC-1  " (by decide)⟩

/-- C9: whenever some `Internal Reference` value is repeated across rows,
the validator emits exactly one duplicates warning; its payload is the list
of values at the positions flagged by `duplicated()`, and a position is
flagged exactly when an equal value occurs at an earlier position (the
first occurrence is never flagged, every later one is). -/
theorem C9_single_duplicate_warning (df : List TargetRow)
    (h : ∃ i j : ℕ, i < j ∧ j < df.length ∧
      (df.map fun r => r.internalReference)[i]? =
        (df.map fun r => r.internalReference)[j]?) :
    (validate_transformed_data df).warnings.countP VMsg.isDuplicateRefs = 1 ∧
    VMsg.duplicateRefs
        (maskList (dupFlags (df.map fun r => r.internalReference))
          (df.map fun r => r.internalReference)) ∈
      (validate_transformed_data df).warnings ∧
    ∀ i : ℕ, i < df.length →
      ((dupFlags (df.map fun r => r.internalReference))[i]? = some true ↔
        ∃ k, k < i ∧
          (df.map fun r => r.internalReference)[k]? =
            (df.map fun r => r.internalReference)[i]?) := by
  obtain ⟨i, j, hij, hj, heq⟩ := h
  have hlen : (df.map fun r => r.internalReference).length = df.length :=
    List.length_map _ _
  have hjlt : j < (df.map fun r => r.internalReference).length := by
    rw [hlen]; exact hj
  obtain ⟨x, hx⟩ : ∃ x, (df.map fun r => r.internalReference)[j]? = some x :=
    ⟨_, List.getElem?_eq_getElem hjlt⟩
  have hflagj :
      (dupFlags (df.map fun r => r.internalReference))[j]? = some true := by
    rw [dupFlags_getElem?_true]
    exact ⟨x, hx, i, hij, by rw [heq]; exact hx⟩
  have hany : (dupFlags (df.map fun r => r.internalReference)).any id = true := by
    rw [List.any_eq_true]
    exact ⟨true, List.getElem?_mem hflagj, rfl⟩
  have hwarn : (validate_transformed_data df).warnings =
      VMsg.duplicateRefs
          (maskList (dupFlags (df.map fun r => r.internalReference))
            (df.map fun r => r.internalReference)) ::
        (numericFieldWarnings df "Sale Price" (fun r => r.salePrice) ++
          numericFieldWarnings df "Cost" (fun r => r.cost) ++
          numericFieldWarnings df "Quantity On Hand" (fun r => r.qtyOnHand)) := by
    show ((if (dupFlags (df.map fun r => r.internalReference)).any id then
        [VMsg.duplicateRefs
          (maskList (dupFlags (df.map fun r => r.internalReference))
            (df.map fun r => r.internalReference))] else []) ++
      numericFieldWarnings df "Sale Price" (fun r => r.salePrice) ++
      numericFieldWarnings df "Cost" (fun r => r.cost) ++
      numericFieldWarnings df "Quantity On Hand" (fun r => r.qtyOnHand)) = _
    rw [if_pos hany]
    simp [List.append_assoc]
  refine ⟨?_, ?_, ?_⟩
  · rw [hwarn, List.countP_cons]
    simp [List.countP_append, countP_numericFieldWarnings, VMsg.isDuplicateRefs]
  · rw [hwarn]
    exact List.mem_cons_self _ _
  · intro i' hi'
    have hi'' : i' < (df.map fun r => r.internalReference).length := by
      rw [hlen]; exact hi'
    rw [dupFlags_getElem?_true]
    constructor
    · rintro ⟨x', hx', k, hk, hkx⟩
      exact ⟨k, hk, by rw [hkx, hx']⟩
    · rintro ⟨k, hk, hkeq⟩
      exact ⟨(df.map fun r => r.internalReference)[i'],
        List.getElem?_eq_getElem hi'', k, hk,
        by rw [hkeq]; exact List.getElem?_eq_getElem hi''⟩

/-- C9 witness: two rows sharing `Internal Reference = "DUP-1"` produce one
duplicates warning whose payload is the masked list, and the second
position is flagged. -/
theorem C9_witness :
    (validate_transformed_data
        [sampleRow "DUP-1" "W1", sampleRow "DUP-1" "W2"]).warnings.countP
      VMsg.isDuplicateRefs = 1 ∧
    VMsg.duplicateRefs
        (maskList
          (dupFlags ([sampleRow "DUP-1" "W1", sampleRow "DUP-1" "W2"].map
            fun r => r.internalReference))
          ([sampleRow "DUP-1" "W1", sampleRow "DUP-1" "W2"].map
            fun r => r.internalReference)) ∈
      (validate_transformed_data
        [sampleRow "DUP-1" "W1", sampleRow "DUP-1" "W2"]).warnings ∧
    (dupFlags ([sampleRow "DUP-1" "W1", sampleRow "DUP-1" "W2"].map
        fun r => r.internalReference))[1]? = some true := by
  have h := C9_single_duplicate_warning
    [sampleRow "DUP-1" "W1", sampleRow "DUP-1" "W2"]
    ⟨0, 1, by decide, by decide, by decide⟩
  exact ⟨h.1, h.2.1, (h.2.2 1 (by decide)).mpr ⟨0, by decide, by decide⟩⟩

/-- C10: the scalar currency formatter returns `0.0` for a missing value and
for any value whose conversion fails (no exception escapes, being a total
function), and otherwise rounds with ties away from zero (its integer
kernel is `⌊x + 1/2⌋` reflected at zero): `2.345` at 2 places yields
`2.35`, `-2.345` yields `-2.35`, `19.999` yields `20.0`. -/
theorem C10_format_currency_total (places : ℕ) :
    format_currency places Cell.missing = 0 ∧
    (∀ s, parseNumeric s = none → format_currency places (Cell.text s) = 0) ∧
    (∀ x : ℚ, roundHalfUpScaled x =
      if 0 ≤ x then ⌊x + 1 / 2⌋ else -⌊-x + 1 / 2⌋) ∧
    format_currency 2 (Cell.text "2.345") = mkRat 47 20 ∧
    format_currency 2 (Cell.text "-2.345") = mkRat (-47) 20 ∧
    format_currency 2 (Cell.text "19.999") = 20 := by
  refine ⟨rfl, ?_, roundHalfUpScaled_eq, by decide, by decide, by decide⟩
  intro s hs
  simp [format_currency, hs]

/-- C10 witness: the missing and unparsable cases at concrete inputs. -/
theorem C10_witness :
    format_currency 2 Cell.missing = 0 ∧
    parseNumeric "oops" = none ∧ format_currency 2 (Cell.text "oops") = 0 :=
  ⟨(C10_format_currency_total 2).1, by decide,
    (C10_format_currency_total 2).2.1 "oops" (by decide)⟩
